import Mathlib

/-!
Shallow embedding of the live-shoot session coordinator (the Pinia `useShootStore`
in the repository's shoot store module).  The store's reactive refs become fields
of an explicit `StoreState`; calls to the external collaborators (HTTP shoot
service, WebSocket notification service, push-notification manager, toast,
`localStorage`) are modelled as oracle results threaded through environment
records, and their observable side effects as append-only logs inside the state.
Every async flow of the store becomes a pure function from environment and
pre-state to result and post-state; a `throw` escaping a flow is an `Except.error`.
-/

namespace ShootStore

/-- Connection status enumeration of the store:
`'disconnected' | 'connecting' | 'connected' | 'error'`. -/
inductive ConnectionStatus where
  | disconnected
  | connecting
  | connected
  | error
deriving DecidableEq, Repr

/-- A participant entry of a shoot, restricted to the field the store reads
(`p.archerName`). -/
structure Participant where
  archerName : String
deriving DecidableEq, Repr

/-- A shoot session snapshot as the store consumes it: its `code` and its
`participants` roster. -/
structure Shoot where
  code : String
  participants : List Participant
deriving DecidableEq, Repr

/-- The `PersistedShootState` interface of the store:
`{shootCode, archerName, roundName, joinedAt}`. -/
structure PersistedShootState where
  shootCode : String
  archerName : String
  roundName : String
  joinedAt : Int
deriving DecidableEq, Repr

/-- Result shape `{success, shoot?}` returned by the shoot service's
`joinShoot` / `updateScore` / `finishShoot` calls. -/
structure ServiceResult where
  success : Bool
  shoot : Option Shoot
deriving DecidableEq, Repr

/-- The store's state: the reactive refs (`currentShoot`, `isLoading`,
`connectionStatus`, `lastUpdateTime`), the nullable service singletons (as
presence flags), the WebSocket connectedness, the `localStorage` slot under key
`'currentShoot'` (raw string), and append-only logs of the externally visible
calls (subscribe/unsubscribe/disconnect, push-manager calls, toasts, console
logging, and channel events delivered to the listeners). -/
structure StoreState where
  currentShoot : Option Shoot := none
  isLoading : Bool := false
  connectionStatus : ConnectionStatus := ConnectionStatus.disconnected
  lastUpdateTime : Option Int := none
  shootServiceSome : Bool := false
  webSocketServiceSome : Bool := false
  pushManagerSome : Bool := false
  wsConnected : Bool := false
  slot : Option String := none
  subscribeLog : List String := []
  unsubscribeLog : List String := []
  disconnectCount : Nat := 0
  pushClearLog : List String := []
  pushProcessLog : List (String × List Participant × Option String) := []
  toastLog : List String := []
  consoleLog : List String := []
  firedEvents : List String := []
deriving DecidableEq, Repr

/-- The store's initial state: `currentShoot = null`, `isLoading = false`,
`connectionStatus = 'disconnected'`, `lastUpdateTime = null`, no services
constructed yet, nothing in storage, no external calls made. -/
def initialState : StoreState := {}

/-- `maxAge = 24 * 60 * 60 * 1000` — 24 hours in milliseconds. -/
def maxAge : Int := 24 * 60 * 60 * 1000

/-- `saveShootState(shootCode, archerName, roundName)`: writes the JSON encoding
of `{shootCode, archerName, roundName, joinedAt: Date.now()}` into the storage
slot.  `encode` models `JSON.stringify`, `now` models `Date.now()`. -/
def saveShootState (encode : PersistedShootState → String) (now : Int)
    (st : StoreState) (shootCode archerName roundName : String) : StoreState :=
  { st with slot := some (encode ⟨shootCode, archerName, roundName, now⟩) }

/-- `clearPersistedShootState()`: `localStorage.removeItem('currentShoot')`. -/
def clearPersistedShootState (st : StoreState) : StoreState :=
  { st with slot := none }

/-- `getPersistedShootState()`: reads the slot; a missing or empty (falsy) string
yields `null`; a string `JSON.parse` rejects (modelled by the oracle `parse`
returning `none`) is caught — the catch logs the parse error via
`console.error`, removes the slot and returns `null`; a parsed record older
than `maxAge` is removed and `null` returned; otherwise the record is
returned.  Returns the read result together with the post-state. -/
def getPersistedShootState (parse : String → Option PersistedShootState)
    (now : Int) (st : StoreState) : Option PersistedShootState × StoreState :=
  match st.slot with
  | none => (none, st)
  | some stored =>
    if stored = "" then (none, st)
    else
      match parse stored with
      | none =>
        (none, clearPersistedShootState
          { st with consoleLog := st.consoleLog ++ ["Error parsing persisted shoot state:"] })
      | some state =>
        if now - state.joinedAt > maxAge then (none, clearPersistedShootState st)
        else (some state, st)

/-- `initializeServices()`: lazily constructs the HTTP shoot service and the
WebSocket service (registering the listeners) when absent. -/
def initializeServices (st : StoreState) : StoreState :=
  let st := if st.shootServiceSome then st else { st with shootServiceSome := true }
  if st.webSocketServiceSome then st else { st with webSocketServiceSome := true }

/-- `initializePushNotifications()`: lazily constructs the push-notification
manager when absent. -/
def initializePushNotifications (st : StoreState) : StoreState :=
  if st.pushManagerSome then st else { st with pushManagerSome := true }

/-- The `'websocket-connected'` listener: records the delivered event, sets
`connectionStatus = 'connected'`, and re-subscribes to the current shoot's code
when a shoot is active. -/
def handleWebsocketConnected (st : StoreState) : StoreState :=
  let st := { st with firedEvents := st.firedEvents ++ ["websocket-connected"],
                      connectionStatus := ConnectionStatus.connected }
  match st.currentShoot with
  | some c => { st with subscribeLog := st.subscribeLog ++ [c.code] }
  | none => st

/-- The `'websocket-disconnected'` listener: records the event and sets
`connectionStatus = 'disconnected'`. -/
def handleWebsocketDisconnected (st : StoreState) : StoreState :=
  { st with firedEvents := st.firedEvents ++ ["websocket-disconnected"],
            connectionStatus := ConnectionStatus.disconnected }

/-- The `'websocket-error'` listener: records the event and sets
`connectionStatus = 'error'`. -/
def handleWebsocketError (st : StoreState) : StoreState :=
  { st with firedEvents := st.firedEvents ++ ["websocket-error"],
            connectionStatus := ConnectionStatus.error }

/-- The `'websocket-reconnecting'` listener: records the event and sets
`connectionStatus = 'connecting'`. -/
def handleWebsocketReconnecting (st : StoreState) : StoreState :=
  { st with firedEvents := st.firedEvents ++ ["websocket-reconnecting"],
            connectionStatus := ConnectionStatus.connecting }

/-- Payload of a `'shoot-updated'` channel event:
`event.detail = { shootCode, shoot }`. -/
structure ShootUpdatedEvent where
  shootCode : String
  shoot : Shoot
deriving DecidableEq, Repr

/-- The truthiness of `currentShoot.value?.code === code`: false when no shoot
is active (optional chaining yields `undefined`), otherwise a code comparison. -/
def currentCodeIs (st : StoreState) (code : String) : Bool :=
  match st.currentShoot with
  | some c => c.code == code
  | none => false

/-- The `'shoot-updated'` listener: records the event; when the event's
`shootCode` equals the active shoot's code, replaces `currentShoot` wholesale
with the event's `shoot` payload and refreshes `lastUpdateTime` (`new Date()`
modelled by the delivery time `now`); otherwise changes nothing else. -/
def handleShootUpdated (st : StoreState) (e : ShootUpdatedEvent) (now : Int) : StoreState :=
  if currentCodeIs st e.shootCode then
    { st with firedEvents := st.firedEvents ++ ["shoot-updated"],
              currentShoot := some e.shoot, lastUpdateTime := some now }
  else
    { st with firedEvents := st.firedEvents ++ ["shoot-updated"] }

/-- Processes a finite sequence of `'shoot-updated'` events in delivery order,
each paired with its delivery time. -/
def processShootUpdates (st : StoreState) (evs : List (ShootUpdatedEvent × Int)) : StoreState :=
  evs.foldl (fun s et => handleShootUpdated s et.1 et.2) st

/-- The `'shoot-updated'` events of a sequence whose `shootCode` equals `c`. -/
def matchingUpdates (c : String) (evs : List (ShootUpdatedEvent × Int)) :
    List (ShootUpdatedEvent × Int) :=
  evs.filter (fun et => et.1.shootCode = c)

/-- Payload of a `'shoot-notification'` channel event's `notification` object:
its `type`, an optional `archerName`, and an optional embedded shoot snapshot. -/
structure ShootNotification where
  type : String
  archerName : Option String
  shoot : Option Shoot
deriving DecidableEq, Repr

/-- The `switch (notification.type)` table at the end of
`handleShootNotification`: every recognized type (`joined_shoot`, `left_shoot`,
`position_change`, `score_update`, `archer_finished`) falls through silently —
the `archer_finished` toast call is commented out in the source — and an
unrecognized type is logged via `console.log`. -/
def dispatchNotificationType (st : StoreState) (ntype : String) : StoreState :=
  if ntype = "joined_shoot" then st
  else if ntype = "left_shoot" then st
  else if ntype = "position_change" then st
  else if ntype = "score_update" then st
  else if ntype = "archer_finished" then
    -- Could show a toast when someone finishes (the call is commented out)
    st
  else { st with consoleLog := st.consoleLog ++ ["Unknown notification type: " ++ ntype] }

/-- `handleShootNotification(notification)`: when the notification embeds a
shoot whose code matches the active session, replaces `currentShoot` with it
and, for a `score_update` with the push manager present, forwards code, roster
and triggering archer to `pushNotificationManager.processShootUpdate`; then the
type-dispatch table runs. -/
def handleShootNotification (st : StoreState) (n : ShootNotification) : StoreState :=
  let st1 :=
    match n.shoot with
    | some ns =>
      if currentCodeIs st ns.code then
        let st2 := { st with currentShoot := some ns }
        if st2.pushManagerSome ∧ n.type = "score_update" then
          { st2 with pushProcessLog :=
              st2.pushProcessLog ++ [(ns.code, ns.participants, n.archerName)] }
        else st2
      else st
    | none => st
  dispatchNotificationType st1 n.type

/-- The `'shoot-notification'` listener: records the delivered event; when the
event's `shootCode` matches the active session's code, runs
`handleShootNotification` and refreshes `lastUpdateTime`; events for any other
code are discarded. -/
def handleShootNotificationEvent (st : StoreState) (evCode : String)
    (n : ShootNotification) (now : Int) : StoreState :=
  let st := { st with firedEvents := st.firedEvents ++ ["shoot-notification"] }
  if currentCodeIs st evCode then
    let st := handleShootNotification st n
    { st with lastUpdateTime := some now }
  else st

/-- `initializeWebSocket()`: initializes the services and the push manager;
when the channel is already connected, sets status to connected and returns;
otherwise sets status to connecting and awaits `connect()` — a successful
connect is reported through the channel's `'websocket-connected'` event
(delivered to the listener), while a thrown connect error is caught and status
set directly to `'error'`.  `connectOk` models whether
`webSocketService.connect()` resolves or rejects. -/
def initializeWebSocket (connectOk : Bool) (st : StoreState) : StoreState :=
  let st := initializeServices st
  let st := initializePushNotifications st
  if st.wsConnected then { st with connectionStatus := ConnectionStatus.connected }
  else
    let st := { st with connectionStatus := ConnectionStatus.connecting }
    if connectOk then handleWebsocketConnected { st with wsConnected := true }
    else { st with consoleLog := st.consoleLog ++ ["Failed to connect WebSocket:"],
                   connectionStatus := ConnectionStatus.error }

/-- Environment for `tryRestoreFromPersistedState`: the `JSON.parse` oracle,
the `Date.now()` clock, the result of `shootService.getShoot` (which may
reject), and whether a channel `connect()` attempt would succeed. -/
structure RestoreEnv where
  parse : String → Option PersistedShootState
  now : Int
  getShoot : String → Except Unit (Option Shoot)
  connectOk : Bool

/-- `tryRestoreFromPersistedState()`: reads the persisted record (an expired or
corrupt one is purged during the read); absent a record, returns false with no
further effect; otherwise re-fetches the shoot — a rejected fetch, a missing
shoot, or an archer absent from the roster purges the record and returns false;
otherwise the shoot is adopted as current, the channel connected, the code
re-subscribed when connected, and true returned. -/
def tryRestoreFromPersistedState (env : RestoreEnv) (st : StoreState) : Bool × StoreState :=
  match getPersistedShootState env.parse env.now st with
  | (none, st) => (false, st)
  | (some persistedState, st) =>
    let st := initializeServices st
    match env.getShoot persistedState.shootCode with
    | Except.error _ =>
      (false, clearPersistedShootState
        { st with consoleLog := st.consoleLog ++ ["Failed to restore shoot state:"] })
    | Except.ok none => (false, clearPersistedShootState st)
    | Except.ok (some shoot) =>
      if shoot.participants.any (fun p => p.archerName == persistedState.archerName) then
        let st := { st with currentShoot := some shoot }
        let st := initializeWebSocket env.connectOk st
        let st := if st.webSocketServiceSome && st.wsConnected then
            { st with subscribeLog := st.subscribeLog ++ [persistedState.shootCode] }
          else st
        (true, st)
      else (false, clearPersistedShootState st)

/-- Environment for `createShoot`: the `JSON.stringify` oracle, `Date.now()`,
the connect outcome, and the three service-call results (`createShoot`,
`joinShoot`, `updateScore`), each able to reject. -/
structure CreateEnv where
  encode : PersistedShootState → String
  now : Int
  connectOk : Bool
  createResult : Except Unit (String × Shoot)
  joinResult : Except Unit ServiceResult
  updateResult : Except Unit ServiceResult

/-- `createShoot(creatorName, roundName, currentScore, arrowsShot, title?)`:
creates the shoot, connects the channel and subscribes to the new code before
joining as a participant; on join success replaces `currentShoot`, persists the
record and issues a baseline score sync whose confirmed shoot replaces
`currentShoot` again; on join failure falls back to the bare created shoot; a
thrown service error is logged, toasted and rethrown; `isLoading` is reset in
the `finally`. -/
def createShoot (env : CreateEnv) (creatorName roundName : String)
    (currentScore arrowsShot : Int) (title : Option String) (st : StoreState) :
    Except Unit Unit × StoreState :=
  let st := { st with consoleLog := st.consoleLog ++ ["createShoot called with:"] }
  let st := initializeServices st
  let st := { st with isLoading := true }
  match env.createResult with
  | Except.error _ =>
    (Except.error (), { st with
        consoleLog := st.consoleLog ++ ["Failed to create shoot:"],
        toastLog := st.toastLog ++ ["Failed to create shoot"],
        isLoading := false })
  | Except.ok result =>
    let st := initializeWebSocket env.connectOk st
    let st := if st.webSocketServiceSome && st.wsConnected then
        { st with subscribeLog := st.subscribeLog ++ [result.1] }
      else st
    match env.joinResult with
    | Except.error _ =>
      (Except.error (), { st with
          consoleLog := st.consoleLog ++ ["Failed to create shoot:"],
          toastLog := st.toastLog ++ ["Failed to create shoot"],
          isLoading := false })
    | Except.ok joinResult =>
      if joinResult.success ∧ joinResult.shoot.isSome then
        let st := { st with currentShoot := joinResult.shoot }
        let st := saveShootState env.encode env.now st result.1 creatorName roundName
        match env.updateResult with
        | Except.error _ =>
          (Except.error (), { st with
              consoleLog := st.consoleLog ++ ["Failed to create shoot:"],
              toastLog := st.toastLog ++ ["Failed to create shoot"],
              isLoading := false })
        | Except.ok scoreResult =>
          let st := if scoreResult.success ∧ scoreResult.shoot.isSome then
              { st with currentShoot := scoreResult.shoot }
            else st
          (Except.ok (), { st with isLoading := false })
      else
        let st := { st with currentShoot := some result.2 }
        (Except.ok (), { st with isLoading := false })

/-- Environment for `joinShoot`: the `JSON.stringify` oracle, `Date.now()`, the
connect outcome, and the `joinShoot` / `updateScore` service results. -/
structure JoinEnv where
  encode : PersistedShootState → String
  now : Int
  connectOk : Bool
  joinResult : Except Unit ServiceResult
  updateResult : Except Unit ServiceResult

/-- `joinShoot(code, archerName, roundName, currentScore, arrowsShot)`: joins an
existing shoot; on service success replaces `currentShoot`, persists the record,
connects and subscribes, issues the baseline score sync, and returns true; on
service-reported failure or any thrown error returns false with a toast;
`isLoading` is reset in the `finally`. -/
def joinShoot (env : JoinEnv) (code archerName roundName : String)
    (currentScore arrowsShot : Int) (st : StoreState) : Bool × StoreState :=
  let st := initializeServices st
  let st := { st with isLoading := true }
  match env.joinResult with
  | Except.error _ =>
    (false, { st with toastLog := st.toastLog ++ ["Failed to join shoot"],
                      isLoading := false })
  | Except.ok result =>
    if result.success ∧ result.shoot.isSome then
      let st := { st with currentShoot := result.shoot }
      let st := saveShootState env.encode env.now st code archerName roundName
      let st := initializeWebSocket env.connectOk st
      let st := if st.webSocketServiceSome && st.wsConnected then
          { st with subscribeLog := st.subscribeLog ++ [code] }
        else st
      match env.updateResult with
      | Except.error _ =>
        (false, { st with toastLog := st.toastLog ++ ["Failed to join shoot"],
                          isLoading := false })
      | Except.ok scoreResult =>
        let st := if scoreResult.success ∧ scoreResult.shoot.isSome then
            { st with currentShoot := scoreResult.shoot }
          else st
        (true, { st with isLoading := false })
    else
      (false, { st with toastLog := st.toastLog ++ ["Failed to join shoot - shoot not found"],
                        isLoading := false })

/-- Environment for `connectAsViewer`: the `getShoot` service result (which may
reject) and the connect outcome. -/
structure ViewerEnv where
  getShoot : Except Unit (Option Shoot)
  connectOk : Bool

/-- `connectAsViewer(code)`: fetches the shoot without joining; when found,
adopts it as current, connects and subscribes, and returns true; when absent
returns false; a thrown error is logged and false returned; `isLoading` is
reset in the `finally`.  No persisted record is written. -/
def connectAsViewer (env : ViewerEnv) (code : String) (st : StoreState) : Bool × StoreState :=
  let st := initializeServices st
  let st := { st with isLoading := true }
  match env.getShoot with
  | Except.error _ =>
    (false, { st with consoleLog := st.consoleLog ++ ["Failed to connect as viewer:"],
                      isLoading := false })
  | Except.ok none => (false, { st with isLoading := false })
  | Except.ok (some shoot) =>
    let st := { st with currentShoot := some shoot }
    let st := initializeWebSocket env.connectOk st
    let st := if st.webSocketServiceSome && st.wsConnected then
        { st with subscribeLog := st.subscribeLog ++ [code] }
      else st
    (true, { st with isLoading := false })

/-- Environment for `leaveShoot`: the `leaveShoot` service result — a rejection
or the returned `success` flag. -/
structure LeaveEnv where
  leaveResult : Except Unit Bool

/-- `leaveShoot(archerName)`: a no-op when the service is absent or no session
is active; otherwise calls the service — on reported success unsubscribes the
channel from the session's code, purges the persisted record and clears
`currentShoot`; on reported failure or a thrown error only a toast (and log)
is emitted; `isLoading` is reset in the `finally`. -/
def leaveShoot (env : LeaveEnv) (archerName : String) (st : StoreState) : StoreState :=
  if !st.shootServiceSome then st
  else
    match st.currentShoot with
    | none => st
    | some cur =>
      let st := { st with isLoading := true }
      match env.leaveResult with
      | Except.error _ =>
        { st with consoleLog := st.consoleLog ++ ["Failed to leave shoot:"],
                  toastLog := st.toastLog ++ ["Failed to leave shoot"],
                  isLoading := false }
      | Except.ok success =>
        if success then
          let st := if st.webSocketServiceSome then
              { st with unsubscribeLog := st.unsubscribeLog ++ [cur.code] }
            else st
          let st := clearPersistedShootState st
          { st with currentShoot := none, isLoading := false }
        else
          { st with toastLog := st.toastLog ++ ["Failed to leave shoot"],
                    isLoading := false }

/-- `updateScore(archerName, totalScore, roundName, arrowsShot,
currentClassification?, scores?)`: a no-op when the service is absent or no
session is active; otherwise sends the update to the service — the success
branch is empty (no local replacement of `currentShoot`; the authoritative
update arrives over the channel), reported failure toasts, a thrown error is
only logged. -/
def updateScore (updateResult : Except Unit ServiceResult) (archerName : String)
    (totalScore : Int) (roundName : String) (arrowsShot : Int)
    (currentClassification : Option String) (scores : Option (List (Int ⊕ String)))
    (st : StoreState) : StoreState :=
  if !st.shootServiceSome then st
  else
    match st.currentShoot with
    | none => st
    | some _ =>
      match updateResult with
      | Except.error _ =>
        { st with consoleLog := st.consoleLog ++ ["Failed to update score:"] }
      | Except.ok result =>
        if result.success ∧ result.shoot.isSome then st
        else { st with toastLog := st.toastLog ++ ["Failed to update score"] }

/-- `finishShoot(archerName, totalScore, roundName, arrowsShot,
currentClassification?, scores?)`: a no-op when the service is absent or no
session is active; on service success replaces `currentShoot` with the locked
result and toasts success; otherwise toasts failure (a thrown error also
logs). -/
def finishShoot (finishResult : Except Unit ServiceResult) (archerName : String)
    (totalScore : Int) (roundName : String) (arrowsShot : Int)
    (currentClassification : Option String) (scores : Option (List (Int ⊕ String)))
    (st : StoreState) : StoreState :=
  if !st.shootServiceSome then st
  else
    match st.currentShoot with
    | none => st
    | some _ =>
      match finishResult with
      | Except.error _ =>
        { st with consoleLog := st.consoleLog ++ ["Failed to finish shoot:"],
                  toastLog := st.toastLog ++ ["Failed to finish shoot"] }
      | Except.ok result =>
        if result.success ∧ result.shoot.isSome then
          { st with currentShoot := result.shoot,
                    toastLog := st.toastLog ++ ["Round completed and score locked!"] }
        else { st with toastLog := st.toastLog ++ ["Failed to finish shoot"] }

/-- The exported `cleanup` closure of the store: disconnects the channel when
present, clears the push manager's per-shoot settings for the active session's
code when both exist, then clears `currentShoot` and resets status to
disconnected — the persisted record is deliberately not cleared. -/
def cleanup (st : StoreState) : StoreState :=
  let st := if st.webSocketServiceSome then
      { st with disconnectCount := st.disconnectCount + 1, wsConnected := false }
    else st
  let st := if st.pushManagerSome then
      (match st.currentShoot with
       | some cur => { st with pushClearLog := st.pushClearLog ++ [cur.code] }
       | none => st)
    else st
  { st with currentShoot := none, connectionStatus := ConnectionStatus.disconnected }

end ShootStore

namespace ShootStore

theorem processShootUpdates_concat (st : StoreState) (evs : List (ShootUpdatedEvent × Int))
    (et : ShootUpdatedEvent × Int) :
    processShootUpdates st (evs ++ [et])
      = handleShootUpdated (processShootUpdates st evs) et.1 et.2 := by
  simp [processShootUpdates, List.foldl_append]

theorem currentCodeIs_some (st : StoreState) (c : Shoot) (code : String)
    (h : st.currentShoot = some c) : currentCodeIs st code = (c.code == code) := by
  simp [currentCodeIs, h]

theorem currentCodeIs_none (st : StoreState) (code : String)
    (h : st.currentShoot = none) : currentCodeIs st code = false := by
  simp [currentCodeIs, h]

theorem handleShootUpdated_matched (st : StoreState) (e : ShootUpdatedEvent) (now : Int)
    (h : currentCodeIs st e.shootCode = true) :
    handleShootUpdated st e now
      = { st with firedEvents := st.firedEvents ++ ["shoot-updated"],
                  currentShoot := some e.shoot, lastUpdateTime := some now } := by
  simp [handleShootUpdated, h]

theorem handleShootUpdated_unmatched (st : StoreState) (e : ShootUpdatedEvent) (now : Int)
    (h : currentCodeIs st e.shootCode = false) :
    handleShootUpdated st e now
      = { st with firedEvents := st.firedEvents ++ ["shoot-updated"] } := by
  simp [handleShootUpdated, h]

theorem processShootUpdates_spec (st : StoreState) (s0 : Shoot)
    (evs : List (ShootUpdatedEvent × Int))
    (h0 : st.currentShoot = some s0)
    (hwf : ∀ et ∈ evs, (et : ShootUpdatedEvent × Int).1.shoot.code = et.1.shootCode) :
    (processShootUpdates st evs).currentShoot
        = ((matchingUpdates s0.code evs).getLast?.elim st.currentShoot
            fun et => some et.1.shoot) ∧
    (processShootUpdates st evs).lastUpdateTime
        = ((matchingUpdates s0.code evs).getLast?.elim st.lastUpdateTime
            fun et => some et.2) ∧
    (∀ c, (processShootUpdates st evs).currentShoot = some c → c.code = s0.code) := by
  induction evs using List.reverseRecOn with
  | nil =>
    refine ⟨by simp [processShootUpdates, matchingUpdates],
      by simp [processShootUpdates, matchingUpdates], ?_⟩
    intro c hc
    simp [processShootUpdates] at hc
    rw [h0] at hc
    injection hc with hc
    rw [← hc]
  | append_singleton evs et ih =>
    have hwf' : ∀ e ∈ evs, (e : ShootUpdatedEvent × Int).1.shoot.code = e.1.shootCode := by
      intro e he; exact hwf e (by simp [he])
    have hwfet : et.1.shoot.code = et.1.shootCode := hwf et (by simp)
    obtain ⟨ih1, ih2, ih3⟩ := ih hwf'
    have hstep := processShootUpdates_concat st evs et
    have hcursome : ∃ c, (processShootUpdates st evs).currentShoot = some c := by
      cases hcur : (processShootUpdates st evs).currentShoot with
      | none =>
        rw [hcur] at ih1
        cases hl : (matchingUpdates s0.code evs).getLast? with
        | none => rw [hl] at ih1; simp [h0] at ih1
        | some x => rw [hl] at ih1; simp at ih1
      | some c => exact ⟨c, rfl⟩
    obtain ⟨ccur, hccur⟩ := hcursome
    have hcode : ccur.code = s0.code := ih3 ccur hccur
    by_cases hm : et.1.shootCode = s0.code
    · -- the appended event matches the active code
      have hmatch : currentCodeIs (processShootUpdates st evs) et.1.shootCode = true := by
        rw [currentCodeIs_some _ ccur _ hccur]
        simp [hcode, hm]
      have hfilter : matchingUpdates s0.code (evs ++ [et])
          = matchingUpdates s0.code evs ++ [et] := by
        simp [matchingUpdates, List.filter_append, hm]
      rw [hstep, handleShootUpdated_matched _ _ _ hmatch, hfilter]
      refine ⟨by simp [List.getLast?_concat], by simp [List.getLast?_concat], ?_⟩
      intro c hc
      simp at hc
      rw [← hc, hwfet, hm]
    · -- the appended event has some other code
      have hnomatch : currentCodeIs (processShootUpdates st evs) et.1.shootCode = false := by
        rw [currentCodeIs_some _ ccur _ hccur]
        simp [hcode]
        intro hcc
        exact absurd hcc.symm hm
      have hfilter : matchingUpdates s0.code (evs ++ [et])
          = matchingUpdates s0.code evs := by
        simp [matchingUpdates, List.filter_append, hm]
      rw [hstep, handleShootUpdated_unmatched _ _ _ hnomatch, hfilter]
      exact ⟨ih1, ih2, ih3⟩

/-- C1: while a session is active, a `shoot-updated` event whose `shootCode`
equals the active session's code replaces `currentShoot` wholesale with the
event's shoot payload and refreshes `lastUpdateTime`; an event with any other
code leaves `currentShoot` and `lastUpdateTime` unchanged; after a whole
sequence of such events (delivered at strictly increasing clock readings),
`currentShoot` equals the shoot payload of the last matching event and
`lastUpdateTime` is refreshed at a strictly increasing sequence of times across
the matching events. -/
theorem shoot_updated_sequence_spec (st : StoreState) (s0 : Shoot)
    (evs : List (ShootUpdatedEvent × Int))
    (h0 : st.currentShoot = some s0)
    (hwf : ∀ et ∈ evs, (et : ShootUpdatedEvent × Int).1.shoot.code = et.1.shootCode)
    (hmono : List.Chain' (fun a b : Int => a < b) (evs.map Prod.snd)) :
    (∀ st' c e t, st'.currentShoot = some c → (c : Shoot).code = (e : ShootUpdatedEvent).shootCode →
        handleShootUpdated st' e t
          = { st' with firedEvents := st'.firedEvents ++ ["shoot-updated"],
                       currentShoot := some e.shoot, lastUpdateTime := some t }) ∧
    (∀ st' c e t, st'.currentShoot = some c → (c : Shoot).code ≠ (e : ShootUpdatedEvent).shootCode →
        (handleShootUpdated st' e t).currentShoot = st'.currentShoot ∧
        (handleShootUpdated st' e t).lastUpdateTime = st'.lastUpdateTime) ∧
    (processShootUpdates st evs).currentShoot
        = ((matchingUpdates s0.code evs).getLast?.elim st.currentShoot
            fun et => some et.1.shoot) ∧
    (processShootUpdates st evs).lastUpdateTime
        = ((matchingUpdates s0.code evs).getLast?.elim st.lastUpdateTime
            fun et => some et.2) ∧
    List.Chain' (fun a b : Int => a < b) ((matchingUpdates s0.code evs).map Prod.snd) := by
  obtain ⟨m1, m2, _⟩ := processShootUpdates_spec st s0 evs h0 hwf
  refine ⟨?_, ?_, m1, m2, ?_⟩
  · intro st' c e t hcur hcode
    apply handleShootUpdated_matched
    rw [currentCodeIs_some _ c _ hcur]
    simp [hcode]
  · intro st' c e t hcur hcode
    rw [handleShootUpdated_unmatched]
    · exact ⟨rfl, rfl⟩
    · rw [currentCodeIs_some _ c _ hcur]
      simp [hcode]
  · exact hmono.sublist ((List.filter_sublist evs).map Prod.snd)

/-- Concrete active store state used to witness the theorem of C1. -/
def stateC1 : StoreState := { initialState with currentShoot := some ⟨"AB12", []⟩ }

/-- Concrete event sequence used to witness the theorem of C1: two matching
updates at times 1 and 3 around a foreign-code update at time 2. -/
def eventsC1 : List (ShootUpdatedEvent × Int) :=
  [(⟨"AB12", ⟨"AB12", [⟨"Alice"⟩]⟩⟩, 1),
   (⟨"ZZ99", ⟨"ZZ99", []⟩⟩, 2),
   (⟨"AB12", ⟨"AB12", [⟨"Bob"⟩]⟩⟩, 3)]

/-- Witness for C1: on the concrete sequence, the final `currentShoot` is the
payload of the last matching event and `lastUpdateTime` is its delivery time. -/
theorem shoot_updated_sequence_spec_witness :
    (processShootUpdates stateC1 eventsC1).currentShoot = some ⟨"AB12", [⟨"Bob"⟩]⟩ ∧
    (processShootUpdates stateC1 eventsC1).lastUpdateTime = some 3 := by
  have h := shoot_updated_sequence_spec stateC1 ⟨"AB12", []⟩ eventsC1 rfl
    (by decide) (by simp [eventsC1, List.chain'_cons])
  refine ⟨?_, ?_⟩
  · rw [h.2.2.1]; rfl
  · rw [h.2.2.2.1]; rfl

/-- C2: `tryRestoreFromPersistedState` returns false and leaves no persisted
record when no record exists, when the record is older than 24 hours, when
`getShoot` rejects or returns no session, or when the recorded archer is absent
from the fetched roster; in the no-record case the state is fully untouched and
in the expired-record case only the record removal happens. -/
theorem restore_failure_cases (env : RestoreEnv) (st : StoreState) :
    (st.slot = none → tryRestoreFromPersistedState env st = (false, st)) ∧
    (∀ raw ps, st.slot = some raw → raw ≠ "" → env.parse raw = some ps →
        env.now - ps.joinedAt > maxAge →
        tryRestoreFromPersistedState env st = (false, { st with slot := none })) ∧
    (∀ raw ps, st.slot = some raw → raw ≠ "" → env.parse raw = some ps →
        ¬(env.now - ps.joinedAt > maxAge) →
        env.getShoot ps.shootCode = Except.error () →
        (tryRestoreFromPersistedState env st).1 = false ∧
        (tryRestoreFromPersistedState env st).2.slot = none) ∧
    (∀ raw ps, st.slot = some raw → raw ≠ "" → env.parse raw = some ps →
        ¬(env.now - ps.joinedAt > maxAge) →
        env.getShoot ps.shootCode = Except.ok none →
        (tryRestoreFromPersistedState env st).1 = false ∧
        (tryRestoreFromPersistedState env st).2.slot = none) ∧
    (∀ raw ps shoot, st.slot = some raw → raw ≠ "" → env.parse raw = some ps →
        ¬(env.now - ps.joinedAt > maxAge) →
        env.getShoot ps.shootCode = Except.ok (some shoot) →
        (∀ p ∈ shoot.participants, (p : Participant).archerName ≠ ps.archerName) →
        (tryRestoreFromPersistedState env st).1 = false ∧
        (tryRestoreFromPersistedState env st).2.slot = none) := by
  refine ⟨?_, ?_, ?_, ?_, ?_⟩
  · intro h
    simp [tryRestoreFromPersistedState, getPersistedShootState, h]
  · intro raw ps hslot hraw hparse hold
    simp [tryRestoreFromPersistedState, getPersistedShootState, hslot, hraw, hparse, hold,
      clearPersistedShootState]
  · intro raw ps hslot hraw hparse hold hget
    simp [tryRestoreFromPersistedState, getPersistedShootState, hslot, hraw, hparse, hold, hget,
      clearPersistedShootState]
  · intro raw ps hslot hraw hparse hold hget
    simp [tryRestoreFromPersistedState, getPersistedShootState, hslot, hraw, hparse, hold, hget,
      clearPersistedShootState]
  · intro raw ps shoot hslot hraw hparse hold hget habsent
    have hany : shoot.participants.any (fun p => p.archerName == ps.archerName) = false := by
      simp only [List.any_eq_false]
      intro p hp
      simpa using habsent p hp
    simp [tryRestoreFromPersistedState, getPersistedShootState, hslot, hraw, hparse, hold, hget,
      hany, clearPersistedShootState]

/-- Concrete environment used to witness the theorem of C2: a record parsed at
`joinedAt = 0` read at a clock beyond the 24-hour maximum age. -/
def restoreEnvC2 : RestoreEnv :=
  { parse := fun _ => some ⟨"AB12", "Bob", "national", 0⟩,
    now := 90000000,
    getShoot := fun _ => Except.ok none,
    connectOk := true }

/-- Witness for C2: an expired persisted record makes the restore return false
and purges the record while leaving everything else untouched. -/
theorem restore_failure_cases_witness :
    tryRestoreFromPersistedState restoreEnvC2 { initialState with slot := some "rec" }
      = (false, { ({ initialState with slot := some "rec" } : StoreState) with slot := none }) := by
  exact (restore_failure_cases restoreEnvC2 { initialState with slot := some "rec" }).2.1
    "rec" ⟨"AB12", "Bob", "national", 0⟩ rfl (by decide) rfl (by decide)

/-- C3: with an active session and the services initialized, `leaveShoot` on a
successful service leave clears `currentShoot`, unsubscribes the channel from
the session's code and purges the persisted record; on a reported failure or a
thrown error both `currentShoot` and the persisted record are unchanged. -/
theorem leave_shoot_spec (env : LeaveEnv) (archerName : String) (st : StoreState) (cur : Shoot)
    (hsvc : st.shootServiceSome = true) (hws : st.webSocketServiceSome = true)
    (hcur : st.currentShoot = some cur) :
    (env.leaveResult = Except.ok true →
        (leaveShoot env archerName st).currentShoot = none ∧
        (leaveShoot env archerName st).unsubscribeLog = st.unsubscribeLog ++ [cur.code] ∧
        (leaveShoot env archerName st).slot = none) ∧
    (env.leaveResult = Except.ok false →
        (leaveShoot env archerName st).currentShoot = st.currentShoot ∧
        (leaveShoot env archerName st).slot = st.slot) ∧
    (env.leaveResult = Except.error () →
        (leaveShoot env archerName st).currentShoot = st.currentShoot ∧
        (leaveShoot env archerName st).slot = st.slot) := by
  refine ⟨?_, ?_, ?_⟩ <;> intro hres <;>
    simp [leaveShoot, hsvc, hws, hcur, hres, clearPersistedShootState]

/-- Concrete active store state used to witness the theorem of C3. -/
def stateC3 : StoreState :=
  { initialState with currentShoot := some ⟨"AB12", [⟨"Alice"⟩]⟩,
                      shootServiceSome := true, webSocketServiceSome := true,
                      slot := some "rec" }

/-- Witness for C3: on a successful service leave at a concrete active state,
the session is cleared, the channel unsubscribed and the record purged. -/
theorem leave_shoot_spec_witness :
    (leaveShoot ⟨Except.ok true⟩ "Alice" stateC3).currentShoot = none ∧
    (leaveShoot ⟨Except.ok true⟩ "Alice" stateC3).unsubscribeLog
      = stateC3.unsubscribeLog ++ ["AB12"] ∧
    (leaveShoot ⟨Except.ok true⟩ "Alice" stateC3).slot = none := by
  exact (leave_shoot_spec ⟨Except.ok true⟩ "Alice" stateC3 ⟨"AB12", [⟨"Alice"⟩]⟩
    rfl rfl rfl).1 rfl

/-- Concrete `createShoot` environment whose channel `connect()` rejects while
every service call succeeds. -/
def createEnvC4 : CreateEnv :=
  { encode := fun _ => "enc",
    now := 0,
    connectOk := false,
    createResult := Except.ok ("AB12", ⟨"AB12", []⟩),
    joinResult := Except.ok ⟨true, some ⟨"AB12", [⟨"Alice"⟩]⟩⟩,
    updateResult := Except.ok ⟨true, some ⟨"AB12", [⟨"Alice"⟩]⟩⟩ }

/-- Counterexample to C4: a `createShoot` request flow during which no channel
lifecycle event is delivered nevertheless changes `connectionStatus` (from
disconnected to error, set directly in `initializeWebSocket`'s catch), so
transitions are not driven exclusively by channel lifecycle events. -/
theorem connection_status_direct_set_counterexample :
    (createShoot createEnvC4 "Alice" "national" 0 0 none initialState).2.firedEvents
      = initialState.firedEvents ∧
    (createShoot createEnvC4 "Alice" "national" 0 0 none initialState).2.connectionStatus
      ≠ initialState.connectionStatus := by
  refine ⟨by decide, by decide⟩

/-- C4 (amended): `connectionStatus` is driven by the four channel lifecycle
events and additionally set directly by the connection-establishment path
`initializeWebSocket` (connected when the channel is already connected,
connecting before a connect attempt, error on a failed attempt); the
request/response operations that do not establish a connection — `leaveShoot`,
`updateScore`, `finishShoot` and the shoot-update/notification handlers —
never change `connectionStatus`. -/
theorem connection_status_transitions_amended (lenv : LeaveEnv)
    (ures fres : Except Unit ServiceResult) (a rn : String) (ts ars : Int)
    (cc : Option String) (sc : Option (List (Int ⊕ String)))
    (e : ShootUpdatedEvent) (evCode : String) (n : ShootNotification) (now : Int)
    (st : StoreState) (co : Bool) :
    (leaveShoot lenv a st).connectionStatus = st.connectionStatus ∧
    (updateScore ures a ts rn ars cc sc st).connectionStatus = st.connectionStatus ∧
    (finishShoot fres a ts rn ars cc sc st).connectionStatus = st.connectionStatus ∧
    (handleShootUpdated st e now).connectionStatus = st.connectionStatus ∧
    (handleShootNotificationEvent st evCode n now).connectionStatus = st.connectionStatus ∧
    (handleWebsocketConnected st).connectionStatus = ConnectionStatus.connected ∧
    (handleWebsocketDisconnected st).connectionStatus = ConnectionStatus.disconnected ∧
    (handleWebsocketError st).connectionStatus = ConnectionStatus.error ∧
    (handleWebsocketReconnecting st).connectionStatus = ConnectionStatus.connecting ∧
    (initializeWebSocket co st).connectionStatus
      = (if st.wsConnected then ConnectionStatus.connected
         else if co then ConnectionStatus.connected else ConnectionStatus.error) := by
  refine ⟨?_, ?_, ?_, ?_, ?_, ?_, ?_, ?_, ?_, ?_⟩
  · unfold leaveShoot clearPersistedShootState
    rcases st.shootServiceSome with _ | _ <;> rcases hcur : st.currentShoot with _ | cur <;>
      rcases lenv.leaveResult with _ | b <;> try rfl
    all_goals (rcases b with _ | _ <;> rcases st.webSocketServiceSome with _ | _ <;> rfl)
  · unfold updateScore
    rcases st.shootServiceSome with _ | _ <;> rcases hcur : st.currentShoot with _ | cur <;>
      rcases ures with _ | r <;> try rfl
    all_goals (by_cases hr : r.success ∧ r.shoot.isSome <;> simp [hr])
  · unfold finishShoot
    rcases st.shootServiceSome with _ | _ <;> rcases hcur : st.currentShoot with _ | cur <;>
      rcases fres with _ | r <;> try rfl
    all_goals (by_cases hr : r.success ∧ r.shoot.isSome <;> simp [hr])
  · unfold handleShootUpdated
    rcases h : currentCodeIs st e.shootCode <;> simp [h]
  · unfold handleShootNotificationEvent handleShootNotification dispatchNotificationType
    rcases h : currentCodeIs { st with firedEvents := st.firedEvents ++ ["shoot-notification"] } evCode <;>
      simp [h] <;> split_ifs <;> rcases n.shoot <;> simp <;> split_ifs <;> rfl
  · unfold handleWebsocketConnected
    rcases h : st.currentShoot <;> simp [h]
  · rfl
  · rfl
  · rfl
  · unfold initializeWebSocket initializeServices initializePushNotifications
      handleWebsocketConnected
    rcases h1 : st.shootServiceSome <;> rcases h2 : st.webSocketServiceSome <;>
      rcases h3 : st.pushManagerSome <;> rcases h4 : st.wsConnected <;>
      rcases co <;> simp [h1, h2, h3, h4] <;>
      rcases h5 : st.currentShoot <;> simp [h5]

/-- Concrete active store state used for the counterexample and witness of C5. -/
def stateC5 : StoreState := { initialState with currentShoot := some ⟨"AB12", []⟩ }

/-- Counterexample to C5: an `archer_finished` notification for the active
session's code produces no user-visible UI action whatsoever — the toast log
(and every other externally visible log) is untouched, because the toast call
in the `archer_finished` case is commented out in the source. -/
theorem archer_finished_no_ui_counterexample :
    (handleShootNotificationEvent stateC5 "AB12" ⟨"archer_finished", some "Alice", none⟩ 5).toastLog
      = stateC5.toastLog ∧
    (handleShootNotificationEvent stateC5 "AB12" ⟨"archer_finished", some "Alice", none⟩ 5).consoleLog
      = stateC5.consoleLog ∧
    (handleShootNotificationEvent stateC5 "AB12" ⟨"archer_finished", some "Alice", none⟩ 5).pushProcessLog
      = stateC5.pushProcessLog ∧
    (handleShootNotificationEvent stateC5 "AB12" ⟨"archer_finished", some "Alice", none⟩ 5).lastUpdateTime
      = some 5 := by
  refine ⟨by decide, by decide, by decide, by decide⟩

/-- The notification types recognized by the dispatch table. -/
def recognizedNotificationTypes : List String :=
  ["joined_shoot", "left_shoot", "position_change", "score_update", "archer_finished"]

theorem dispatchNotificationType_toastLog (st : StoreState) (t : String) :
    (dispatchNotificationType st t).toastLog = st.toastLog := by
  unfold dispatchNotificationType
  split_ifs <;> rfl

theorem dispatchNotificationType_recognized (st : StoreState) (t : String)
    (h : t ∈ recognizedNotificationTypes) :
    (dispatchNotificationType st t).consoleLog = st.consoleLog := by
  simp only [recognizedNotificationTypes, List.mem_cons, List.mem_singleton,
    List.not_mem_nil, or_false] at h
  unfold dispatchNotificationType
  rcases h with h | h | h | h | h <;> subst h <;> simp

theorem dispatchNotificationType_unknown (st : StoreState) (t : String)
    (h : t ∉ recognizedNotificationTypes) :
    (dispatchNotificationType st t).consoleLog
      = st.consoleLog ++ ["Unknown notification type: " ++ t] := by
  simp only [recognizedNotificationTypes, List.mem_cons, List.mem_singleton,
    List.not_mem_nil, or_false, not_or] at h
  obtain ⟨h1, h2, h3, h4, h5⟩ := h
  unfold dispatchNotificationType
  rw [if_neg h1, if_neg h2, if_neg h3, if_neg h4, if_neg h5]

theorem handleShootNotification_eq_dispatch (st : StoreState) (n : ShootNotification) :
    ∃ st1 : StoreState, handleShootNotification st n = dispatchNotificationType st1 n.type
      ∧ st1.toastLog = st.toastLog ∧ st1.consoleLog = st.consoleLog := by
  rcases hsh : n.shoot with _ | ns
  · exact ⟨st, by simp [handleShootNotification, hsh], rfl, rfl⟩
  · rcases hc : currentCodeIs st ns.code
    · exact ⟨st, by simp [handleShootNotification, hsh, hc], rfl, rfl⟩
    · by_cases hp : ({ st with currentShoot := some ns } : StoreState).pushManagerSome
          ∧ n.type = "score_update"
      · have hmain : handleShootNotification st n
            = dispatchNotificationType
                { st with
                    currentShoot := some ns,
                    pushProcessLog :=
                      st.pushProcessLog ++ [(ns.code, ns.participants, n.archerName)] }
                n.type := by
          simp only [handleShootNotification, hsh]
          rw [if_pos hc, if_pos hp]
        exact ⟨_, hmain, rfl, rfl⟩
      · have hmain : handleShootNotification st n
            = dispatchNotificationType { st with currentShoot := some ns } n.type := by
          simp only [handleShootNotification, hsh]
          rw [if_pos hc, if_neg hp]
        exact ⟨_, hmain, rfl, rfl⟩

/-- C5 (amended): a `shoot-notification` event whose code matches the active
session updates internal state (`lastUpdateTime` is refreshed) while every
recognized type — `archer_finished` included, its toast being a commented-out
extension point — is silent on the UI notification path, and an unrecognized
type is logged for diagnostics and otherwise ignored. -/
theorem notification_dispatch_amended (st : StoreState) (c : Shoot) (evCode : String)
    (n : ShootNotification) (now : Int)
    (hcur : st.currentShoot = some c) (hm : c.code = evCode) :
    (handleShootNotificationEvent st evCode n now).toastLog = st.toastLog ∧
    (handleShootNotificationEvent st evCode n now).lastUpdateTime = some now ∧
    (n.type ∈ recognizedNotificationTypes →
        (handleShootNotificationEvent st evCode n now).consoleLog = st.consoleLog) ∧
    (n.type ∉ recognizedNotificationTypes →
        (handleShootNotificationEvent st evCode n now).consoleLog
          = st.consoleLog ++ ["Unknown notification type: " ++ n.type]) := by
  have hc : currentCodeIs { st with firedEvents := st.firedEvents ++ ["shoot-notification"] }
      evCode = true := by
    rw [currentCodeIs_some _ c _ (by simp [hcur])]
    simp [hm]
  obtain ⟨st1, heq, ht, hcon⟩ := handleShootNotification_eq_dispatch
    { st with firedEvents := st.firedEvents ++ ["shoot-notification"] } n
  have hev : handleShootNotificationEvent st evCode n now
      = { dispatchNotificationType st1 n.type with lastUpdateTime := some now } := by
    unfold handleShootNotificationEvent
    rw [← heq]
    simp [hc]
  refine ⟨?_, ?_, ?_, ?_⟩
  · rw [hev]
    simpa using (dispatchNotificationType_toastLog st1 n.type).trans ht
  · rw [hev]
  · intro hrec
    rw [hev]
    simpa using (dispatchNotificationType_recognized st1 n.type hrec).trans hcon
  · intro hunk
    rw [hev]
    simpa using (dispatchNotificationType_unknown st1 n.type hunk).trans (by rw [hcon])

/-- Witness for the amended C5: a matching `position_change` notification
leaves the toast log untouched while refreshing `lastUpdateTime`. -/
theorem notification_dispatch_amended_witness :
    (handleShootNotificationEvent stateC5 "AB12" ⟨"position_change", some "Alice", none⟩ 7).toastLog
      = stateC5.toastLog ∧
    (handleShootNotificationEvent stateC5 "AB12" ⟨"position_change", some "Alice", none⟩ 7).lastUpdateTime
      = some 7 := by
  have h := notification_dispatch_amended stateC5 ⟨"AB12", []⟩ "AB12"
    ⟨"position_change", some "Alice", none⟩ 7 rfl rfl
  exact ⟨h.1, h.2.1⟩

/-- C6: the exported `cleanup` never removes the persisted session record (for
every state, active session or not); with an active session and both services
present it disconnects the channel, clears the push settings for the active
session's code, resets status to disconnected and clears `currentShoot`, while
the persisted record remains exactly as it was. -/
theorem cleanup_spec (st : StoreState) (cur : Shoot)
    (hcur : st.currentShoot = some cur) (hws : st.webSocketServiceSome = true)
    (hpm : st.pushManagerSome = true) :
    (∀ st' : StoreState, (cleanup st').slot = st'.slot) ∧
    (cleanup st).disconnectCount = st.disconnectCount + 1 ∧
    (cleanup st).pushClearLog = st.pushClearLog ++ [cur.code] ∧
    (cleanup st).connectionStatus = ConnectionStatus.disconnected ∧
    (cleanup st).currentShoot = none := by
  refine ⟨?_, ?_, ?_, ?_, ?_⟩
  · intro st'
    unfold cleanup
    rcases h1 : st'.webSocketServiceSome <;> rcases h2 : st'.pushManagerSome <;>
      rcases h3 : st'.currentShoot <;> simp [h1, h2, h3]
  all_goals simp [cleanup, hcur, hws, hpm]

/-- Concrete active store state used to witness the theorem of C6. -/
def stateC6 : StoreState :=
  { initialState with currentShoot := some ⟨"AB12", [⟨"Alice"⟩]⟩,
                      webSocketServiceSome := true, pushManagerSome := true,
                      slot := some "rec" }

/-- Witness for C6: cleaning up a concrete active state leaves the persisted
record in place while tearing everything else down. -/
theorem cleanup_spec_witness :
    (cleanup stateC6).slot = stateC6.slot ∧
    (cleanup stateC6).disconnectCount = stateC6.disconnectCount + 1 ∧
    (cleanup stateC6).pushClearLog = stateC6.pushClearLog ++ ["AB12"] ∧
    (cleanup stateC6).connectionStatus = ConnectionStatus.disconnected ∧
    (cleanup stateC6).currentShoot = none := by
  have h := cleanup_spec stateC6 ⟨"AB12", [⟨"Alice"⟩]⟩ rfl rfl rfl
  exact ⟨h.1 stateC6, h.2.1, h.2.2.1, h.2.2.2.1, h.2.2.2.2⟩

/-- C7: `updateScore` never assigns `currentShoot` — whatever the service
returns (success, reported failure, or a thrown error), and also on its no-op
guard paths, the flow leaves `currentShoot` exactly as it was. -/
theorem update_score_never_assigns_current_shoot (ures : Except Unit ServiceResult)
    (a : String) (ts : Int) (rn : String) (ars : Int) (cc : Option String)
    (sc : Option (List (Int ⊕ String))) (st : StoreState) :
    (updateScore ures a ts rn ars cc sc st).currentShoot = st.currentShoot := by
  unfold updateScore
  rcases st.shootServiceSome with _ | _ <;> rcases hcur : st.currentShoot with _ | cur <;>
    rcases ures with _ | r
  all_goals try rfl
  all_goals try exact hcur
  all_goals (by_cases hr : r.success ∧ r.shoot.isSome <;> simp [hr, hcur])

theorem initializeServices_eq (st : StoreState) :
    initializeServices st
      = { st with shootServiceSome := true, webSocketServiceSome := true } := by
  cases st
  unfold initializeServices
  rename_i a b c d e f g h i j k l m n o p q
  rcases e <;> rcases f <;> rfl

theorem initializePushNotifications_eq (st : StoreState) :
    initializePushNotifications st = { st with pushManagerSome := true } := by
  cases st
  unfold initializePushNotifications
  rename_i a b c d e f g h i j k l m n o p q
  rcases g <;> rfl

theorem initializeWebSocket_connect_failed (st : StoreState) (h : st.wsConnected = false) :
    initializeWebSocket false st
      = { st with shootServiceSome := true, webSocketServiceSome := true,
                  pushManagerSome := true,
                  consoleLog := st.consoleLog ++ ["Failed to connect WebSocket:"],
                  connectionStatus := ConnectionStatus.error } := by
  simp only [initializeWebSocket, initializeServices_eq, initializePushNotifications_eq]
  simp [h]

/-- C8: a failed channel `connect()` is never fatal — when `connect()` rejects
during `createShoot`, `joinShoot`, `connectAsViewer` or the restore flow (and
the service calls themselves succeed), the operation still completes with its
normal result and adopted session, `connectionStatus` ends as error, and no
subscription is made because `subscribeToShoot` is guarded by `isConnected()`. -/
theorem connect_failure_never_fatal
    (cenv : CreateEnv) (jenv : JoinEnv) (venv : ViewerEnv) (renv : RestoreEnv)
    (cn rn code an ccode raw : String) (cs sh sh2 jsh jsh2 vsh rsh : Shoot)
    (ps : PersistedShootState) (st : StoreState) (hws : st.wsConnected = false) :
    (cenv.connectOk = false → cenv.createResult = Except.ok (ccode, cs) →
        cenv.joinResult = Except.ok ⟨true, some sh⟩ →
        cenv.updateResult = Except.ok ⟨true, some sh2⟩ →
        (createShoot cenv cn rn 0 0 none st).1 = Except.ok () ∧
        (createShoot cenv cn rn 0 0 none st).2.currentShoot = some sh2 ∧
        (createShoot cenv cn rn 0 0 none st).2.connectionStatus = ConnectionStatus.error ∧
        (createShoot cenv cn rn 0 0 none st).2.subscribeLog = st.subscribeLog) ∧
    (jenv.connectOk = false → jenv.joinResult = Except.ok ⟨true, some jsh⟩ →
        jenv.updateResult = Except.ok ⟨true, some jsh2⟩ →
        (joinShoot jenv code an rn 0 0 st).1 = true ∧
        (joinShoot jenv code an rn 0 0 st).2.currentShoot = some jsh2 ∧
        (joinShoot jenv code an rn 0 0 st).2.connectionStatus = ConnectionStatus.error ∧
        (joinShoot jenv code an rn 0 0 st).2.subscribeLog = st.subscribeLog) ∧
    (venv.connectOk = false → venv.getShoot = Except.ok (some vsh) →
        (connectAsViewer venv code st).1 = true ∧
        (connectAsViewer venv code st).2.currentShoot = some vsh ∧
        (connectAsViewer venv code st).2.connectionStatus = ConnectionStatus.error ∧
        (connectAsViewer venv code st).2.subscribeLog = st.subscribeLog) ∧
    (renv.connectOk = false → st.slot = some raw → raw ≠ "" → renv.parse raw = some ps →
        ¬(renv.now - ps.joinedAt > maxAge) →
        renv.getShoot ps.shootCode = Except.ok (some rsh) →
        rsh.participants.any (fun p => p.archerName == ps.archerName) = true →
        (tryRestoreFromPersistedState renv st).1 = true ∧
        (tryRestoreFromPersistedState renv st).2.currentShoot = some rsh ∧
        (tryRestoreFromPersistedState renv st).2.connectionStatus = ConnectionStatus.error ∧
        (tryRestoreFromPersistedState renv st).2.subscribeLog = st.subscribeLog) := by
  refine ⟨?_, ?_, ?_, ?_⟩
  · intro h1 h2 h3 h4
    simp [createShoot, h1, h2, h3, h4, initializeServices_eq, saveShootState,
      initializeWebSocket_connect_failed, hws]
  · intro h1 h2 h3
    simp [joinShoot, h1, h2, h3, initializeServices_eq, saveShootState,
      initializeWebSocket_connect_failed, hws]
  · intro h1 h2
    simp [connectAsViewer, h1, h2, initializeServices_eq,
      initializeWebSocket_connect_failed, hws]
  · intro h1 hslot hraw hparse hold hget hany
    simp [tryRestoreFromPersistedState, getPersistedShootState, hslot, hraw, hparse, hold,
      hget, hany, h1, initializeServices_eq, initializeWebSocket_connect_failed, hws]

/-- Concrete shoot used by the witness of C8. -/
def shootC8 : Shoot := ⟨"AB12", [⟨"Alice"⟩]⟩

/-- Concrete `createShoot` environment for the witness of C8: the channel
connect rejects while every service call succeeds. -/
def createEnvC8 : CreateEnv :=
  { encode := fun _ => "enc",
    now := 0,
    connectOk := false,
    createResult := Except.ok ("AB12", ⟨"AB12", []⟩),
    joinResult := Except.ok ⟨true, some shootC8⟩,
    updateResult := Except.ok ⟨true, some shootC8⟩ }

/-- Witness for C8: with a rejecting connect and successful service calls,
`createShoot` completes normally, ends in error status, and never subscribes. -/
theorem connect_failure_never_fatal_witness :
    (createShoot createEnvC8 "Alice" "national" 0 0 none initialState).1 = Except.ok () ∧
    (createShoot createEnvC8 "Alice" "national" 0 0 none initialState).2.currentShoot
      = some shootC8 ∧
    (createShoot createEnvC8 "Alice" "national" 0 0 none initialState).2.connectionStatus
      = ConnectionStatus.error ∧
    (createShoot createEnvC8 "Alice" "national" 0 0 none initialState).2.subscribeLog
      = initialState.subscribeLog := by
  exact (connect_failure_never_fatal createEnvC8
    ⟨fun _ => "enc", 0, false, Except.ok ⟨true, none⟩, Except.ok ⟨true, none⟩⟩
    ⟨Except.ok none, false⟩
    ⟨fun _ => none, 0, fun _ => Except.ok none, false⟩
    "Alice" "national" "XY99" "Ann" "AB12" "raw" ⟨"AB12", []⟩
    shootC8 shootC8 shootC8 shootC8 shootC8 shootC8
    ⟨"AB12", "Bob", "national", 0⟩ initialState rfl).1 rfl rfl rfl rfl

/-- Counterexample to C9: an empty string stored in the slot cannot be parsed
as JSON, yet `getPersistedShootState` returns null without removing it — the
falsy-string guard returns before `JSON.parse` runs. -/
theorem corrupt_slot_counterexample :
    (getPersistedShootState (fun _ => none) 0 { initialState with slot := some "" }).1
      = none ∧
    (getPersistedShootState (fun _ => none) 0 { initialState with slot := some "" }).2.slot
      = some "" := by
  exact ⟨rfl, rfl⟩

/-- C9 (amended): when the slot holds a non-empty value that `JSON.parse`
rejects, `getPersistedShootState` does not throw — it logs the parse error,
removes the corrupt record and returns null; an empty-string value is treated
as a missing record and returned as null without removal (and without
logging); in either case a subsequent restore attempt reports false exactly as
if no record existed. -/
theorem corrupt_slot_amended (parse : String → Option PersistedShootState) (now : Int)
    (st : StoreState) (raw : String)
    (hslot : st.slot = some raw) (hparse : parse raw = none) :
    (raw ≠ "" → getPersistedShootState parse now st
        = (none,
           { st with
               slot := none,
               consoleLog := st.consoleLog ++ ["Error parsing persisted shoot state:"] })) ∧
    (raw = "" → getPersistedShootState parse now st = (none, st)) ∧
    (∀ env : RestoreEnv, env.parse = parse → env.now = now →
        (tryRestoreFromPersistedState env st).1 = false) := by
  refine ⟨?_, ?_, ?_⟩
  · intro hraw
    simp [getPersistedShootState, hslot, hraw, hparse, clearPersistedShootState]
  · intro hraw
    simp [getPersistedShootState, hslot, hraw]
  · intro env hp hn
    by_cases hraw : raw = ""
    · simp [tryRestoreFromPersistedState, getPersistedShootState, hslot, hraw]
    · simp [tryRestoreFromPersistedState, getPersistedShootState, hslot, hraw, hp, hparse,
        clearPersistedShootState]

/-- Witness for the amended C9: a non-empty unparseable slot value is purged
and read as null, with the parse error logged. -/
theorem corrupt_slot_amended_witness :
    getPersistedShootState (fun _ => none) 0 { initialState with slot := some "bad" }
      = (none,
         { ({ initialState with slot := some "bad" } : StoreState) with
             slot := none,
             consoleLog := initialState.consoleLog ++ ["Error parsing persisted shoot state:"] }) := by
  exact (corrupt_slot_amended (fun _ => none) 0 { initialState with slot := some "bad" }
    "bad" rfl rfl).1 (by decide)

/-- Counterexample to C10: a `leaveShoot` call that hits the no-op guard (no
active session) while `isLoading` is true — as can happen when it is invoked
during another in-flight flow — terminates without resetting `isLoading` to
false. -/
theorem is_loading_guard_counterexample :
    (leaveShoot ⟨Except.ok true⟩ "Alice"
        { initialState with isLoading := true, shootServiceSome := true }).isLoading
      = true := by
  decide

/-- C10 (amended): `createShoot`, `joinShoot` and `connectAsViewer` always end
with `isLoading = false` whatever the outcome; `leaveShoot` ends with
`isLoading = false` whenever it passes its no-op guard (service present and a
session active), and a guard-rejected `leaveShoot` is an exact no-op that
leaves `isLoading` (and everything else) unchanged. -/
theorem is_loading_amended (cenv : CreateEnv) (jenv : JoinEnv) (venv : ViewerEnv)
    (lenv : LeaveEnv) (cn rn code an : String) (cs ars : Int) (title : Option String)
    (st : StoreState) :
    (createShoot cenv cn rn cs ars title st).2.isLoading = false ∧
    (joinShoot jenv code an rn cs ars st).2.isLoading = false ∧
    (connectAsViewer venv code st).2.isLoading = false ∧
    (st.shootServiceSome = true → st.currentShoot.isSome = true →
        (leaveShoot lenv an st).isLoading = false) ∧
    (¬(st.shootServiceSome = true ∧ st.currentShoot.isSome = true) →
        leaveShoot lenv an st = st) := by
  refine ⟨?_, ?_, ?_, ?_, ?_⟩
  · simp only [createShoot]
    repeat' split
    all_goals rfl
  · simp only [joinShoot]
    repeat' split
    all_goals rfl
  · simp only [connectAsViewer]
    repeat' split
    all_goals rfl
  · intro h1 h2
    rcases hcur : st.currentShoot with _ | cur
    · rw [hcur] at h2
      simp at h2
    · simp only [leaveShoot, h1, hcur]
      repeat' split
      all_goals first | rfl | simp_all
  · intro hng
    unfold leaveShoot
    rcases h1 : st.shootServiceSome
    · simp
    · rcases hcur : st.currentShoot with _ | cur
      · simp
      · exact absurd ⟨h1, by rw [hcur]; rfl⟩ hng

/-- Concrete state for the witness of C10: an active session with the service
present and `isLoading` still true from an in-flight flow. -/
def leaveStateC10 : StoreState :=
  { initialState with shootServiceSome := true, webSocketServiceSome := true,
                      currentShoot := some ⟨"AB12", []⟩, isLoading := true }

/-- Witness for the amended C10: a `leaveShoot` that passes its guard resets
`isLoading`, and a concrete `createShoot` run ends with `isLoading = false`. -/
theorem is_loading_amended_witness :
    (leaveShoot ⟨Except.ok true⟩ "Alice" leaveStateC10).isLoading = false := by
  exact (is_loading_amended
    ⟨fun _ => "enc", 0, true, Except.ok ("AB12", ⟨"AB12", []⟩),
      Except.ok ⟨true, none⟩, Except.ok ⟨true, none⟩⟩
    ⟨fun _ => "enc", 0, true, Except.ok ⟨true, none⟩, Except.ok ⟨true, none⟩⟩
    ⟨Except.ok none, true⟩
    ⟨Except.ok true⟩ "Alice" "national" "AB12" "Alice" 0 0 none
    leaveStateC10).2.2.2.1 rfl rfl

end ShootStore
